import Mathlib

/-!
Verification of the redshift-mcp-server query-execution path.

The development shallowly embeds the Python sources
(`redshift_mcp_server/server.py`, `redshift_mcp_server/util.py`,
`redshift_mcp_server/models.py`).  External collaborators (the psycopg2
driver and the wall clock) are modelled as explicit inputs: a `Driver`
value describes the outcome of the connection attempt and of executing
any statement text, and timestamps are passed in as a parameter.  Each
embedded operation returns, besides its functional outcome, the
observable resource trace of the call: how many connection attempts
were made, how many handles were opened and closed, which statement
texts reached the driver, and which messages were reported through the
context's error channel.
-/

namespace RedshiftMCP

/-- A scalar value as returned by the database driver (raw pass-through,
including nulls). -/
inductive Value where
  | null
  | int (n : Int)
  | str (s : String)
  | boolean (b : Bool)
deriving DecidableEq, Repr

/-- A Python dict with string keys, modelled as an association list in
insertion order. -/
abbrev PyDict := List (String × Value)

/-- The key list of a dict, in insertion order. -/
def dictKeys (d : PyDict) : List String := d.map Prod.fst

/-- Python dict item assignment: an existing key keeps its position and
gets the new value; a new key is appended. -/
def pyDictInsert (d : PyDict) (k : String) (v : Value) : PyDict :=
  if d.any (fun p => p.1 == k) then
    d.map (fun p => if p.1 == k then (k, v) else p)
  else
    d ++ [(k, v)]

/-- `dict(pairs)`: build a Python dict from a pair sequence, later
duplicates overwriting earlier values in place. -/
def pyDictOfPairs (ps : List (String × Value)) : PyDict :=
  ps.foldl (fun d p => pyDictInsert d p.1 p.2) []

/-- A psycopg2-level error: its class name, the optional server-emitted
primary message (`pgerror`), the optional structured diagnostic detail
(`diag.message_detail`), and its generic string representation. -/
structure PgError where
  className : String
  pgerror : Option String
  diagMessageDetail : Option String
  strRepr : String
deriving DecidableEq, Repr

/-- Python truthiness of an optional string attribute: absent/None and
the empty string are falsy. -/
def truthyStr : Option String → Bool
  | none => false
  | some s => if s = "" then false else true

/-- Embeds `util.get_error_detail`: prefer `e.pgerror`, then
`e.diag.message_detail`, else `str(e)`. -/
def get_error_detail (e : PgError) : String :=
  if truthyStr e.pgerror then e.pgerror.getD ""
  else if truthyStr e.diagMessageDetail then e.diagMessageDetail.getD ""
  else e.strRepr

/-- The state of an executed psycopg2 cursor: the column descriptor
(`description`, with each entry collapsed to its name `desc[0]`), the
fetched tuples, and `rowcount`. -/
structure Cursor where
  description : Option (List String)
  fetched : List (List Value)
  rowcount : Int
deriving DecidableEq, Repr

/-- Python truthiness of `cursor.description`: None and the empty
sequence are falsy. -/
def truthyDesc : Option (List String) → Bool
  | none => false
  | some l => !l.isEmpty

/-- Embeds `util.format_query_results`: column names from the
descriptor, and one dict per fetched tuple built by `dict(zip(column_names, row))`. -/
def format_query_results (cursor : Cursor) : List PyDict × List String :=
  let column_names := cursor.description.getD []
  (cursor.fetched.map fun row => pyDictOfPairs (column_names.zip row), column_names)

/-- The database driver as seen by one call: the outcome of
`create_connection` and the outcome of `cursor.execute` on each
statement text. -/
structure Driver where
  connect : Except PgError Unit
  exec : String → Except PgError Cursor

/-- A Python exception kind crossing the embedded boundaries. -/
inductive PyErr where
  | valueError (msg : String)
  | pgError (e : PgError)
deriving DecidableEq, Repr

/-- Whether a propagated exception is the uniform ValueError kind
(the spec's `InvalidOperation`). -/
def isValueError : PyErr → Bool
  | .valueError _ => true
  | _ => false

/-- Embeds `models.QueryResult` (pydantic model).  `execution_time` is
wall-clock data; only its presence is modelled. -/
structure QueryResult where
  rows : List PyDict
  column_names : Option (List String) := none
  affected_rows : Option Int := none
  hasExecutionTime : Bool := false
deriving DecidableEq, Repr

/-- The observable result of one embedded call: functional outcome plus
the call's resource and logging trace. -/
structure CallResult (α : Type) where
  outcome : Except PyErr α
  connectAttempts : Nat := 0
  openedConns : Nat := 0
  closeCalls : Nat := 0
  executedStatements : List String := []
  ctxErrors : List String := []

/-- Python `not s or not s.strip()`: the text is empty or
whitespace-only. -/
def isBlank (s : String) : Bool := s.data.all Char.isWhitespace

/-- Embeds `server.execute_query`.  Validation precedes any connection
attempt; the connection is closed in a `finally` once opened; a driver
error during execution is re-raised as
`ValueError(className + ": " + detail)` after reporting
`"Query execution failed: " + detail` to the context; a connection
failure is wrapped by the outer handler as
`ValueError("Error during query execution: " + str(e))`. -/
def execute_query (drv : Driver) (query : String) : CallResult QueryResult :=
  if isBlank query then
    { outcome := .error (.valueError "Empty query provided")
      ctxErrors := ["Empty query provided"] }
  else
    match drv.connect with
    | .error e =>
        { outcome := .error (.valueError ("Error during query execution: " ++ e.strRepr))
          connectAttempts := 1
          ctxErrors := ["Error during query execution: " ++ e.strRepr] }
    | .ok _ =>
        match drv.exec query with
        | .error e =>
            { outcome := .error (.valueError (e.className ++ ": " ++ get_error_detail e))
              connectAttempts := 1
              openedConns := 1
              closeCalls := 1
              executedStatements := [query]
              ctxErrors := ["Query execution failed: " ++ get_error_detail e] }
        | .ok cursor =>
            if truthyDesc cursor.description then
              let fr := format_query_results cursor
              { outcome := .ok { rows := fr.1, column_names := some fr.2,
                                 hasExecutionTime := true }
                connectAttempts := 1
                openedConns := 1
                closeCalls := 1
                executedStatements := [query] }
            else
              { outcome := .ok { rows := [[("affected_rows", Value.int cursor.rowcount)]],
                                 affected_rows := some cursor.rowcount,
                                 hasExecutionTime := true }
                connectAttempts := 1
                openedConns := 1
                closeCalls := 1
                executedStatements := [query] }

/-- Embeds the `run_query` tool: delegates to `execute_query` and
returns `result.rows`. -/
def run_query (drv : Driver) (query : String) : CallResult (List PyDict) :=
  let r := execute_query drv query
  { outcome := r.outcome.map QueryResult.rows
    connectAttempts := r.connectAttempts
    openedConns := r.openedConns
    closeCalls := r.closeCalls
    executedStatements := r.executedStatements
    ctxErrors := r.ctxErrors }

/-- Embeds the `explain_query` tool: builds `f"EXPLAIN {query}"`,
delegates to `execute_query`, returns `result.rows`. -/
def explain_query (drv : Driver) (query : String) : CallResult (List PyDict) :=
  let r := execute_query drv ("EXPLAIN " ++ query)
  { outcome := r.outcome.map QueryResult.rows
    connectAttempts := r.connectAttempts
    openedConns := r.openedConns
    closeCalls := r.closeCalls
    executedStatements := r.executedStatements
    ctxErrors := r.ctxErrors }

/-- The fixed statement of the `list_schemas` tool, verbatim. -/
def list_schemas_sql : String :=
  "\n    SELECT schema_name, schema_owner\n    FROM information_schema.schemata\n    ORDER BY schema_name\n    "

/-- Embeds the `list_schemas` tool. -/
def list_schemas (drv : Driver) : CallResult (List PyDict) :=
  let r := execute_query drv list_schemas_sql
  { outcome := r.outcome.map QueryResult.rows
    connectAttempts := r.connectAttempts
    openedConns := r.openedConns
    closeCalls := r.closeCalls
    executedStatements := r.executedStatements
    ctxErrors := r.ctxErrors }

/-- psycopg2 `sql.Literal` rendering of a string: single-quoted with
embedded single quotes doubled. -/
def quoteLiteral (s : String) : String :=
  "\x27" ++ ⟨s.data.foldr (fun c acc =>
      if c = '\x27' then '\x27' :: '\x27' :: acc else c :: acc) []⟩ ++ "\x27"

/-- The `list_tables_in_schema` statement after `query.as_string(conn)`,
with the schema name rendered as a quoted SQL literal. -/
def list_tables_sql (schema_name : String) : String :=
  "\n    SELECT table_name, table_type, table_schema\n    FROM information_schema.tables\n    WHERE table_schema = "
    ++ quoteLiteral schema_name
    ++ "\n    ORDER BY table_name\n    "

/-- Embeds the `list_tables_in_schema` tool.  After its own blank-name
validation it opens an auxiliary connection solely to render the
parameterized SQL (closing it right after), then delegates to
`execute_query` (which opens its own connection).  Only `ValueError`
from the delegate is caught and re-wrapped; a driver error raised by
the auxiliary `create_connection` propagates unwrapped. -/
def list_tables_in_schema (drv : Driver) (schema_name : String) : CallResult (List PyDict) :=
  if isBlank schema_name then
    { outcome := .error (.valueError "Empty schema name provided")
      ctxErrors := ["Empty schema name provided"] }
  else
    match drv.connect with
    | .error e =>
        { outcome := .error (.pgError e)
          connectAttempts := 1 }
    | .ok _ =>
        let r := execute_query drv (list_tables_sql schema_name)
        match r.outcome with
        | .ok qr =>
            { outcome := .ok qr.rows
              connectAttempts := 1 + r.connectAttempts
              openedConns := 1 + r.openedConns
              closeCalls := 1 + r.closeCalls
              executedStatements := r.executedStatements
              ctxErrors := r.ctxErrors }
        | .error (.valueError m) =>
            { outcome := .error (.valueError
                ("Failed to list tables in schema \x27" ++ schema_name ++ "\x27: " ++ m))
              connectAttempts := 1 + r.connectAttempts
              openedConns := 1 + r.openedConns
              closeCalls := 1 + r.closeCalls
              executedStatements := r.executedStatements
              ctxErrors := r.ctxErrors ++
                ["Failed to list tables in schema \x27" ++ schema_name ++ "\x27: " ++ m] }
        | .error e2 =>
            { outcome := .error e2
              connectAttempts := 1 + r.connectAttempts
              openedConns := 1 + r.openedConns
              closeCalls := 1 + r.closeCalls
              executedStatements := r.executedStatements
              ctxErrors := r.ctxErrors }

/-- The status record returned by `test_redshift_connection`; an absent
key is `none`. -/
structure ConnTestRecord where
  status : String
  connected : Bool
  version : Option Value := none
  message : Option String := none
  timestamp : Option Nat := none
deriving DecidableEq, Repr

/-- Embeds the `test_redshift_connection` tool.  `now` is the wall
clock value `time.time()` would produce.  Every failure is caught and
converted into a returned record, so the outcome is always `.ok`. -/
def test_redshift_connection (drv : Driver) (now : Nat) : CallResult ConnTestRecord :=
  match drv.connect with
  | .error e =>
      { outcome := .ok { status := "error", connected := false,
                         message := some ("Connection test failed: " ++ e.strRepr) }
        connectAttempts := 1
        ctxErrors := ["Connection test failed: " ++ e.strRepr] }
  | .ok _ =>
      match drv.exec "SELECT version();" with
      | .error e =>
          { outcome := .ok { status := "error", connected := false,
                             message := some ("Connection test failed: " ++ e.strRepr) }
            connectAttempts := 1
            openedConns := 1
            closeCalls := 1
            executedStatements := ["SELECT version();"]
            ctxErrors := ["Connection test failed: " ++ e.strRepr] }
      | .ok cursor =>
          match cursor.fetched.head? with
          | some (v :: _) =>
              { outcome := .ok { status := "success", connected := true,
                                 version := some v, timestamp := some now }
                connectAttempts := 1
                openedConns := 1
                closeCalls := 1
                executedStatements := ["SELECT version();"] }
          | some [] =>
              { outcome := .ok { status := "error", connected := false,
                                 message := some
                                   "Connection test failed: tuple index out of range" }
                connectAttempts := 1
                openedConns := 1
                closeCalls := 1
                executedStatements := ["SELECT version();"]
                ctxErrors := ["Connection test failed: tuple index out of range"] }
          | none =>
              { outcome := .ok { status := "error", connected := false,
                                 message := some
                                   "Connection test failed: \x27NoneType\x27 object is not subscriptable" }
                connectAttempts := 1
                openedConns := 1
                closeCalls := 1
                executedStatements := ["SELECT version();"]
                ctxErrors :=
                  ["Connection test failed: \x27NoneType\x27 object is not subscriptable"] }

/-! ### Concrete driver fixtures used by witnesses and counterexamples -/

/-- A driver-level connection failure. -/
def connErr : PgError :=
  { className := "OperationalError", pgerror := none,
    diagMessageDetail := none, strRepr := "connection refused" }

/-- A driver whose connection attempt always fails. -/
def failDriver : Driver :=
  { connect := .error connErr, exec := fun _ => .error connErr }

/-- A statement-execution failure carrying a server-emitted primary
message. -/
def progErr : PgError :=
  { className := "ProgrammingError",
    pgerror := some "syntax error at or near \"FORM\"",
    diagMessageDetail := none,
    strRepr := "syntax error at or near \"FORM\"\n" }

/-- A driver that connects but fails every statement. -/
def errDriver : Driver :=
  { connect := .ok (), exec := fun _ => .error progErr }

/-- A cursor for a two-column SELECT returning one tuple. -/
def selectCursor : Cursor :=
  { description := some ["id", "name"],
    fetched := [[.int 1, .str "test"]], rowcount := 1 }

/-- A driver that connects and answers every statement with
`selectCursor`. -/
def okDriver : Driver :=
  { connect := .ok (), exec := fun _ => .ok selectCursor }

/-- A cursor whose descriptor repeats the same column name. -/
def dupCursor : Cursor :=
  { description := some ["a", "a"],
    fetched := [[.int 1, .int 2]], rowcount := 1 }

/-- A driver that connects and answers every statement with
`dupCursor`. -/
def dupDriver : Driver :=
  { connect := .ok (), exec := fun _ => .ok dupCursor }

/-- A cursor for a row-affecting statement: no descriptor, rowcount 5. -/
def updateCursor : Cursor :=
  { description := none, fetched := [], rowcount := 5 }

/-- A driver that connects and answers every statement with
`updateCursor`. -/
def updateDriver : Driver :=
  { connect := .ok (), exec := fun _ => .ok updateCursor }

/-- An error carrying every diagnostic field, for exercising the
normalizer's precedence. -/
def fullErr : PgError :=
  { className := "ProgrammingError", pgerror := some "primary message",
    diagMessageDetail := some "secondary detail", strRepr := "fallback repr" }

/-! ### Helper lemmas -/

theorem pyDictInsert_of_not_mem (d : PyDict) (k : String) (v : Value)
    (h : k ∉ dictKeys d) : pyDictInsert d k v = d ++ [(k, v)] := by
  unfold pyDictInsert
  rw [if_neg]
  simp only [List.any_eq_true, beq_iff_eq, not_exists, not_and]
  intro p hp hpk
  exact h (by simpa [dictKeys, hpk] using List.mem_map_of_mem Prod.fst hp)

theorem foldl_pyDictInsert_eq_append (ps : List (String × Value)) :
    ∀ acc : PyDict, (∀ p ∈ ps, p.1 ∉ dictKeys acc) →
      (ps.map Prod.fst).Nodup →
      ps.foldl (fun d p => pyDictInsert d p.1 p.2) acc = acc ++ ps := by
  induction ps with
  | nil => intro acc _ _; simp
  | cons hd tl ih =>
      intro acc hdisj hnd
      rw [List.map_cons] at hnd
      have hnd' := List.nodup_cons.mp hnd
      rw [List.foldl_cons,
        pyDictInsert_of_not_mem acc hd.1 hd.2 (hdisj hd (List.mem_cons_self hd tl))]
      rw [ih (acc ++ [(hd.1, hd.2)]) ?_ hnd'.2]
      · simp
      · intro p hp
        have h1 : p.1 ∉ dictKeys acc := hdisj p (List.mem_cons_of_mem hd hp)
        have h2 : p.1 ≠ hd.1 := by
          intro hEq
          exact hnd'.1 (hEq ▸ List.mem_map_of_mem Prod.fst hp)
        simp only [dictKeys, List.map_append, List.mem_append, List.map_cons,
          List.map_nil, List.mem_singleton]
        rintro (hmem | hmem)
        · exact h1 (by simpa [dictKeys] using hmem)
        · exact h2 hmem

theorem pyDictOfPairs_of_nodup (ps : List (String × Value))
    (h : (ps.map Prod.fst).Nodup) : pyDictOfPairs ps = ps := by
  unfold pyDictOfPairs
  rw [foldl_pyDictInsert_eq_append ps [] (by simp [dictKeys]) h]
  simp

theorem isBlank_explain (q : String) : isBlank ("EXPLAIN " ++ q) = false := by
  simp only [isBlank, String.data_append, List.all_append, Bool.and_eq_false_imp]
  intro h
  exact absurd h (by decide)

theorem execute_query_connectAttempts (drv : Driver) (q : String)
    (h : isBlank q = false) : (execute_query drv q).connectAttempts = 1 := by
  cases hc : drv.connect with
  | error e => simp [execute_query, h, hc]
  | ok u =>
      cases he : drv.exec q with
      | error e => simp [execute_query, h, hc, he]
      | ok cursor =>
          by_cases hd : truthyDesc cursor.description
          · simp [execute_query, h, hc, he, hd]
          · simp [execute_query, h, hc, he, hd]

theorem execute_query_balance (drv : Driver) (q : String) :
    (execute_query drv q).openedConns ≤ 1 ∧
      (execute_query drv q).closeCalls = (execute_query drv q).openedConns := by
  by_cases hb : isBlank q
  · simp [execute_query, hb]
  · cases hc : drv.connect with
    | error e => simp [execute_query, hb, hc]
    | ok u =>
        cases he : drv.exec q with
        | error e => simp [execute_query, hb, hc, he]
        | ok cursor =>
            by_cases hd : truthyDesc cursor.description
            · simp [execute_query, hb, hc, he, hd]
            · simp [execute_query, hb, hc, he, hd]

theorem execute_query_opened_one (drv : Driver) (q : String)
    (hq : isBlank q = false) (hc : drv.connect = .ok ()) :
    (execute_query drv q).openedConns = 1 ∧ (execute_query drv q).closeCalls = 1 := by
  cases he : drv.exec q with
  | error e => simp [execute_query, hq, hc, he]
  | ok cursor =>
      by_cases hd : truthyDesc cursor.description
      · simp [execute_query, hq, hc, he, hd]
      · simp [execute_query, hq, hc, he, hd]

theorem execute_query_uniform_error (drv : Driver) (q : String) (e : PyErr)
    (h : (execute_query drv q).outcome = .error e) : isValueError e = true := by
  by_cases hb : isBlank q
  · simp [execute_query, hb] at h
    simp [← h, isValueError]
  · cases hc : drv.connect with
    | error e2 =>
        simp [execute_query, hb, hc] at h
        simp [← h, isValueError]
    | ok u =>
        cases he : drv.exec q with
        | error e2 =>
            simp [execute_query, hb, hc, he] at h
            simp [← h, isValueError]
        | ok cursor =>
            by_cases hd : truthyDesc cursor.description
            · simp [execute_query, hb, hc, he, hd] at h
            · simp [execute_query, hb, hc, he, hd] at h

theorem isBlank_list_tables_sql (s : String) :
    isBlank (list_tables_sql s) = false := by
  simp only [list_tables_sql, isBlank, String.data_append, List.all_append]
  have h : "\n    SELECT table_name, table_type, table_schema\n    FROM information_schema.tables\n    WHERE table_schema = ".data.all Char.isWhitespace = false := by
    decide
  simp [h]

/-! ### Claim theorems -/

/-- Claim C7: in the Query Executor, once a connection has been
successfully opened its close operation is invoked exactly once before
the call returns or an error propagates — in particular for any
injected execution failure after the open succeeded. -/
theorem execute_query_close_once (drv : Driver) (q : String)
    (hq : isBlank q = false) (hc : drv.connect = .ok ()) :
    (execute_query drv q).openedConns = 1 ∧
      (execute_query drv q).closeCalls = 1 :=
  execute_query_opened_one drv q hq hc

/-- Witness for C7, with an injected execution failure: the driver
connects, the statement fails, and close is still called exactly once. -/
theorem execute_query_close_once_witness :
    isBlank "SELECT 1" = false ∧ errDriver.connect = .ok () ∧
      ((execute_query errDriver "SELECT 1").openedConns = 1 ∧
        (execute_query errDriver "SELECT 1").closeCalls = 1) :=
  ⟨by decide, rfl, execute_query_close_once errDriver "SELECT 1" (by decide) rfl⟩

/-- Claim C8: a successful execution with no column descriptor returns
`rows == [ affected_rows ↦ N ]` and `affected_rows == N` with
`column_names` absent, `N` being the driver-reported count. -/
theorem execute_query_rowcount_shape (drv : Driver) (q : String)
    (fetched : List (List Value)) (n : Int)
    (hq : isBlank q = false) (hc : drv.connect = .ok ())
    (he : drv.exec q = .ok { description := none, fetched := fetched, rowcount := n }) :
    (execute_query drv q).outcome =
      .ok { rows := [[("affected_rows", Value.int n)]], column_names := none,
            affected_rows := some n, hasExecutionTime := true } := by
  simp [execute_query, hq, hc, he, truthyDesc]

/-- Witness for C8 at a concrete row-affecting statement. -/
theorem execute_query_rowcount_shape_witness :
    isBlank "UPDATE t SET x = 1" = false ∧
      (execute_query updateDriver "UPDATE t SET x = 1").outcome =
        .ok { rows := [[("affected_rows", Value.int 5)]], column_names := none,
              affected_rows := some 5, hasExecutionTime := true } :=
  ⟨by decide,
    execute_query_rowcount_shape updateDriver "UPDATE t SET x = 1" [] 5
      (by decide) rfl rfl⟩

/-- Claim C9: the error normalizer returns the server-emitted primary
message when one is carried, else the structured diagnostic detail when
one is carried, else the generic string representation.  ("Carries"
follows the code's truthiness test: present and nonempty.)  The
embedding is a total function, so it never raises. -/
theorem get_error_detail_precedence (e : PgError) :
    (∀ s, e.pgerror = some s → s ≠ "" → get_error_detail e = s) ∧
      (truthyStr e.pgerror = false →
        ∀ d, e.diagMessageDetail = some d → d ≠ "" → get_error_detail e = d) ∧
      (truthyStr e.pgerror = false → truthyStr e.diagMessageDetail = false →
        get_error_detail e = e.strRepr) := by
  refine ⟨?_, ?_, ?_⟩
  · intro s hs hne
    have ht : truthyStr (some s) = true := by simp [truthyStr, hne]
    simp [get_error_detail, hs, ht]
  · intro hp d hd hne
    have ht : truthyStr (some d) = true := by simp [truthyStr, hne]
    simp [get_error_detail, hp, hd, ht]
  · intro hp hd
    simp [get_error_detail, hp, hd]

/-- Witness for C9: the primary message wins on an error carrying every
field. -/
theorem get_error_detail_precedence_witness :
    fullErr.pgerror = some "primary message" ∧ "primary message" ≠ "" ∧
      get_error_detail fullErr = "primary message" :=
  ⟨rfl, by decide,
    (get_error_detail_precedence fullErr).1 "primary message" rfl (by decide)⟩

/-- Claim C10: `explain_query` delegates exactly the statement
`"EXPLAIN " ++ text` (the only statement reaching the driver) and
returns the delegate's rows. -/
theorem explain_query_delegates (drv : Driver) (q : String)
    (hc : drv.connect = .ok ()) :
    (explain_query drv q).executedStatements = ["EXPLAIN " ++ q] ∧
      (explain_query drv q).outcome =
        (execute_query drv ("EXPLAIN " ++ q)).outcome.map QueryResult.rows := by
  refine ⟨?_, rfl⟩
  have hb := isBlank_explain q
  cases he : drv.exec ("EXPLAIN " ++ q) with
  | error e => simp [explain_query, execute_query, hb, hc, he]
  | ok cursor =>
      by_cases hd : truthyDesc cursor.description
      · simp [explain_query, execute_query, hb, hc, he, hd]
      · simp [explain_query, execute_query, hb, hc, he, hd]

/-- Witness for C10: input `"SELECT 1"` yields the executed statement
`"EXPLAIN SELECT 1"`. -/
theorem explain_query_delegates_witness :
    okDriver.connect = .ok () ∧
      (explain_query okDriver "SELECT 1").executedStatements = ["EXPLAIN SELECT 1"] := by
  refine ⟨rfl, ?_⟩
  have h := (explain_query_delegates okDriver "SELECT 1" rfl).1
  simpa using h

/-- Claim C1 counterexample: `explain_query` on the empty string does
not fail with an empty-query error and a connection attempt is made —
the prepended `EXPLAIN ` makes the delegated text non-blank, so the
call proceeds to the driver and here even succeeds. -/
theorem explain_query_blank_cex :
    (explain_query okDriver "").connectAttempts = 1 ∧
      (explain_query okDriver "").outcome =
        .ok [[("id", Value.int 1), ("name", Value.str "test")]] := by
  constructor
  · rfl
  · rfl

/-- Claim C1 (amended): for `run_query`, an empty or whitespace-only
input fails with the uniform error carrying the message
"Empty query provided" (which contains "empty" case-insensitively)
and no connection attempt is made; `explain_query`, however, prepends
`EXPLAIN ` so its delegated text is never blank, and it always makes a
connection attempt. -/
theorem blank_query_validation (drv : Driver) (q : String)
    (h : isBlank q = true) :
    (run_query drv q).outcome = .error (.valueError "Empty query provided") ∧
      (run_query drv q).connectAttempts = 0 ∧
      (∃ pre post, "Empty query provided".data.map Char.toLower =
        pre ++ "empty".data ++ post) ∧
      (explain_query drv q).connectAttempts = 1 := by
  refine ⟨?_, ?_, ⟨[], " query provided".data, ?_⟩, ?_⟩
  · simp [run_query, execute_query, h, Except.map]
  · simp [run_query, execute_query, h]
  · decide
  · have hb := isBlank_explain q
    simpa [explain_query] using
      execute_query_connectAttempts drv ("EXPLAIN " ++ q) hb

/-- Witness for the amended C1 at the whitespace-only input `"  "`. -/
theorem blank_query_validation_witness :
    isBlank "  " = true ∧
      ((run_query okDriver "  ").outcome = .error (.valueError "Empty query provided") ∧
        (run_query okDriver "  ").connectAttempts = 0 ∧
        (∃ pre post, "Empty query provided".data.map Char.toLower =
          pre ++ "empty".data ++ post) ∧
        (explain_query okDriver "  ").connectAttempts = 1) :=
  ⟨by decide, blank_query_validation okDriver "  " (by decide)⟩

/-- Claim C2 counterexample: a successful execution whose column
descriptor repeats a name yields a row-mapping whose key list collapses
to a single key and thus differs from `column_names`. -/
theorem execute_query_dup_columns_cex :
    (execute_query dupDriver "SELECT 1 AS a, 2 AS a").outcome =
      .ok { rows := [[("a", Value.int 2)]], column_names := some ["a", "a"],
            affected_rows := none, hasExecutionTime := true } ∧
      dictKeys [("a", Value.int 2)] ≠ ["a", "a"] := by
  constructor
  · rfl
  · decide

/-- Claim C2 (amended): for a successful execution producing a column
descriptor whose names are pairwise distinct — and driver tuples at
least as long as the descriptor, which the driver guarantees — the
result has one row-mapping per returned tuple and every row-mapping's
key list equals `column_names` exactly, in the same order. -/
theorem execute_query_select_shape (drv : Driver) (q : String)
    (names : List String) (fetched : List (List Value)) (n : Int)
    (hq : isBlank q = false) (hc : drv.connect = .ok ())
    (he : drv.exec q = .ok { description := some names, fetched := fetched, rowcount := n })
    (hne : names ≠ []) (hnd : names.Nodup)
    (hlen : ∀ r ∈ fetched, names.length ≤ r.length) :
    ∃ qr : QueryResult, (execute_query drv q).outcome = .ok qr ∧
      qr.column_names = some names ∧
      qr.rows.length = fetched.length ∧
      ∀ row ∈ qr.rows, dictKeys row = names := by
  have hd : truthyDesc (some names) = true := by
    cases names with
    | nil => exact absurd rfl hne
    | cons a l => rfl
  refine ⟨{ rows := fetched.map fun row => pyDictOfPairs (names.zip row),
            column_names := some names, affected_rows := none,
            hasExecutionTime := true }, ?_, rfl, by simp, ?_⟩
  · simp [execute_query, hq, hc, he, hd, format_query_results]
  · intro row hrow
    rcases List.mem_map.mp hrow with ⟨r, hr, rfl⟩
    have hzip : (names.zip r).map Prod.fst = names :=
      List.map_fst_zip names r (hlen r hr)
    rw [pyDictOfPairs_of_nodup _ (by rw [hzip]; exact hnd)]
    simpa [dictKeys] using hzip

/-- Witness for the amended C2 at a concrete two-column SELECT. -/
theorem execute_query_select_shape_witness :
    isBlank "SELECT id, name FROM t" = false ∧
      (∃ qr : QueryResult,
        (execute_query okDriver "SELECT id, name FROM t").outcome = .ok qr ∧
        qr.column_names = some ["id", "name"] ∧
        qr.rows.length = 1 ∧
        ∀ row ∈ qr.rows, dictKeys row = ["id", "name"]) :=
  ⟨by decide, by
    have h := execute_query_select_shape okDriver "SELECT id, name FROM t"
      ["id", "name"] [[.int 1, .str "test"]] 1 (by decide) rfl rfl
      (by decide) (by decide) (by decide)
    simpa using h⟩

/-- Claim C3 counterexample: on a statement-execution failure the
propagated error message is the driver error's class name followed by
the normalized detail, not "Query execution failed: " followed by the
detail. -/
theorem execute_query_error_message_cex :
    (execute_query errDriver "SELECT * FORM t").outcome =
      .error (.valueError "ProgrammingError: syntax error at or near \"FORM\"") ∧
      ("ProgrammingError: syntax error at or near \"FORM\"" ≠
        "Query execution failed: syntax error at or near \"FORM\"") := by
  constructor
  · rfl
  · decide

/-- Claim C3 (amended): on a statement-execution failure after a
connection was opened, the Query Executor propagates the uniform error
kind with message `className ++ ": " ++ detail`, while the message
"Query execution failed: " ++ detail is reported to the context's
error channel rather than carried by the raised error. -/
theorem execute_query_failure_wrapping (drv : Driver) (q : String) (e : PgError)
    (hq : isBlank q = false) (hc : drv.connect = .ok ())
    (he : drv.exec q = .error e) :
    (execute_query drv q).outcome =
      .error (.valueError (e.className ++ ": " ++ get_error_detail e)) ∧
      (execute_query drv q).ctxErrors =
        ["Query execution failed: " ++ get_error_detail e] := by
  constructor <;> simp [execute_query, hq, hc, he]

/-- Witness for the amended C3 at a concrete injected failure. -/
theorem execute_query_failure_wrapping_witness :
    isBlank "SELECT 1 FROM t" = false ∧
      errDriver.exec "SELECT 1 FROM t" = .error progErr ∧
      ((execute_query errDriver "SELECT 1 FROM t").outcome =
        .error (.valueError (progErr.className ++ ": " ++ get_error_detail progErr)) ∧
        (execute_query errDriver "SELECT 1 FROM t").ctxErrors =
          ["Query execution failed: " ++ get_error_detail progErr]) :=
  ⟨by decide, rfl,
    execute_query_failure_wrapping errDriver "SELECT 1 FROM t" progErr
      (by decide) rfl rfl⟩

/-- Claim C4 counterexample: when the connection attempt fails,
`test_redshift_connection` returns the error shape with no `timestamp`
key, so the timestamp is not present in both shapes. -/
theorem test_connection_error_no_timestamp_cex :
    (test_redshift_connection failDriver 42).outcome =
      .ok { status := "error", connected := false, version := none,
            message := some "Connection test failed: connection refused",
            timestamp := none } := rfl

/-- Claim C4 (amended): `test_redshift_connection` never raises — its
outcome is always a returned record — and the record is either the
success shape with `connected = true`, a version and a timestamp, or
the error shape with `connected = false` and a message but no
timestamp: the timestamp field is present only in the success shape. -/
theorem test_connection_shape (drv : Driver) (now : Nat) :
    ∃ rec : ConnTestRecord,
      (test_redshift_connection drv now).outcome = .ok rec ∧
        ((rec.status = "success" ∧ rec.connected = true ∧
            rec.timestamp = some now ∧ rec.version ≠ none ∧ rec.message = none) ∨
          (rec.status = "error" ∧ rec.connected = false ∧ rec.timestamp = none ∧
            rec.message ≠ none ∧ rec.version = none)) := by
  cases hc : drv.connect with
  | error e =>
      refine ⟨{ status := "error", connected := false,
                message := some ("Connection test failed: " ++ e.strRepr) }, ?_, ?_⟩
      · simp [test_redshift_connection, hc]
      · exact Or.inr ⟨rfl, rfl, rfl, by simp, rfl⟩
  | ok u =>
      cases he : drv.exec "SELECT version();" with
      | error e =>
          refine ⟨{ status := "error", connected := false,
                    message := some ("Connection test failed: " ++ e.strRepr) }, ?_, ?_⟩
          · simp [test_redshift_connection, hc, he]
          · exact Or.inr ⟨rfl, rfl, rfl, by simp, rfl⟩
      | ok cursor =>
          cases hf : cursor.fetched.head? with
          | none =>
              refine ⟨{ status := "error", connected := false,
                        message := some "Connection test failed: \x27NoneType\x27 object is not subscriptable" },
                      ?_, ?_⟩
              · simp [test_redshift_connection, hc, he, hf]
              · exact Or.inr ⟨rfl, rfl, rfl, by simp, rfl⟩
          | some l =>
              cases l with
              | nil =>
                  refine ⟨{ status := "error", connected := false,
                            message := some "Connection test failed: tuple index out of range" },
                          ?_, ?_⟩
                  · simp [test_redshift_connection, hc, he, hf]
                  · exact Or.inr ⟨rfl, rfl, rfl, by simp, rfl⟩
              | cons v t =>
                  refine ⟨{ status := "success", connected := true,
                            version := some v, timestamp := some now }, ?_, ?_⟩
                  · simp [test_redshift_connection, hc, he, hf]
                  · exact Or.inl ⟨rfl, rfl, rfl, by simp, rfl⟩

/-- Claim C5 counterexample: a successful `list_tables_in_schema`
invocation opens two connection handles, not one — the auxiliary handle
used to render the SQL plus the Query Executor's handle. -/
theorem list_tables_two_connections_cex :
    (list_tables_in_schema okDriver "public").openedConns = 2 ∧
      (2 : Nat) ≠ 1 := by
  constructor
  · rfl
  · decide

/-- Claim C5 (amended): `run_query`, `explain_query`, `list_schemas`
and `test_redshift_connection` open at most one connection handle per
invocation, and every handle they open is closed before the invocation
returns; `list_tables_in_schema` opens two handles on a successful
delegation — one auxiliary handle used only to render the
parameterized SQL and one for execution — and also closes every handle
it opens. -/
theorem tool_connection_accounting :
    (∀ drv q, (run_query drv q).openedConns ≤ 1 ∧
        (run_query drv q).closeCalls = (run_query drv q).openedConns) ∧
      (∀ drv q, (explain_query drv q).openedConns ≤ 1 ∧
        (explain_query drv q).closeCalls = (explain_query drv q).openedConns) ∧
      (∀ drv, (list_schemas drv).openedConns ≤ 1 ∧
        (list_schemas drv).closeCalls = (list_schemas drv).openedConns) ∧
      (∀ drv now, (test_redshift_connection drv now).openedConns ≤ 1 ∧
        (test_redshift_connection drv now).closeCalls =
          (test_redshift_connection drv now).openedConns) ∧
      (∀ drv s, (list_tables_in_schema drv s).openedConns ≤ 2 ∧
        (list_tables_in_schema drv s).closeCalls =
          (list_tables_in_schema drv s).openedConns) ∧
      (∀ drv s, isBlank s = false → drv.connect = .ok () →
        (list_tables_in_schema drv s).openedConns = 2) := by
  refine ⟨?_, ?_, ?_, ?_, ?_, ?_⟩
  · intro drv q
    simpa [run_query] using execute_query_balance drv q
  · intro drv q
    simpa [explain_query] using execute_query_balance drv ("EXPLAIN " ++ q)
  · intro drv
    simpa [list_schemas] using execute_query_balance drv list_schemas_sql
  · intro drv now
    cases hc : drv.connect with
    | error e => simp [test_redshift_connection, hc]
    | ok u =>
        cases he : drv.exec "SELECT version();" with
        | error e => simp [test_redshift_connection, hc, he]
        | ok cursor =>
            cases hf : cursor.fetched.head? with
            | none => simp [test_redshift_connection, hc, he, hf]
            | some l =>
                cases l with
                | nil => simp [test_redshift_connection, hc, he, hf]
                | cons v t => simp [test_redshift_connection, hc, he, hf]
  · intro drv s
    by_cases hb : isBlank s
    · simp [list_tables_in_schema, hb]
    · cases hc : drv.connect with
      | error e => simp [list_tables_in_schema, hb, hc]
      | ok u =>
          obtain ⟨h1, h2⟩ := execute_query_balance drv (list_tables_sql s)
          cases ho : (execute_query drv (list_tables_sql s)).outcome with
          | ok qr =>
              constructor <;> simp [list_tables_in_schema, hb, hc, ho] <;> omega
          | error err =>
              cases err with
              | valueError m =>
                  constructor <;> simp [list_tables_in_schema, hb, hc, ho] <;> omega
              | pgError e2 =>
                  constructor <;> simp [list_tables_in_schema, hb, hc, ho] <;> omega
  · intro drv s hb hc
    obtain ⟨h1, _⟩ :=
      execute_query_opened_one drv (list_tables_sql s) (isBlank_list_tables_sql s) hc
    cases ho : (execute_query drv (list_tables_sql s)).outcome with
    | ok qr => simp [list_tables_in_schema, hb, hc, ho, h1]
    | error err =>
        cases err with
        | valueError m => simp [list_tables_in_schema, hb, hc, ho, h1]
        | pgError e2 => simp [list_tables_in_schema, hb, hc, ho, h1]

/-- Witness for the amended C5: two handles on a successful
`list_tables_in_schema` call. -/
theorem tool_connection_accounting_witness :
    isBlank "public" = false ∧ okDriver.connect = .ok () ∧
      (list_tables_in_schema okDriver "public").openedConns = 2 :=
  ⟨by decide, rfl,
    tool_connection_accounting.2.2.2.2.2 okDriver "public" (by decide) rfl⟩

/-- Claim C6 counterexample: when the auxiliary formatting connection
of `list_tables_in_schema` fails, the driver-specific error type
propagates unwrapped to the tool's caller (only `ValueError` is caught
there). -/
theorem list_tables_driver_error_leak_cex :
    (list_tables_in_schema failDriver "public").outcome =
      .error (.pgError connErr) ∧
      isValueError (.pgError connErr) = false := ⟨rfl, rfl⟩

/-- Claim C6 (amended): every failure propagating out of the Query
Executor — and hence out of `run_query`, `explain_query` and
`list_schemas` — is the uniform ValueError kind; but
`list_tables_in_schema` opens an auxiliary connection in the tool
itself, outside that boundary, and a driver failure there propagates
with its driver-specific error type to the tool's caller. -/
theorem error_kind_uniformity :
    (∀ drv q e, (execute_query drv q).outcome = .error e → isValueError e = true) ∧
      (∀ drv q e, (run_query drv q).outcome = .error e → isValueError e = true) ∧
      (∀ drv q e, (explain_query drv q).outcome = .error e → isValueError e = true) ∧
      (∀ drv e, (list_schemas drv).outcome = .error e → isValueError e = true) ∧
      (∀ drv s e0, isBlank s = false → drv.connect = .error e0 →
        (list_tables_in_schema drv s).outcome = .error (.pgError e0)) := by
  refine ⟨fun drv q e h => execute_query_uniform_error drv q e h, ?_, ?_, ?_, ?_⟩
  · intro drv q e h
    cases ho : (execute_query drv q).outcome with
    | ok qr => simp [run_query, ho, Except.map] at h
    | error pe =>
        simp [run_query, ho, Except.map] at h
        exact h ▸ execute_query_uniform_error drv q pe ho
  · intro drv q e h
    cases ho : (execute_query drv ("EXPLAIN " ++ q)).outcome with
    | ok qr => simp [explain_query, ho, Except.map] at h
    | error pe =>
        simp [explain_query, ho, Except.map] at h
        exact h ▸ execute_query_uniform_error drv ("EXPLAIN " ++ q) pe ho
  · intro drv e h
    cases ho : (execute_query drv list_schemas_sql).outcome with
    | ok qr => simp [list_schemas, ho, Except.map] at h
    | error pe =>
        simp [list_schemas, ho, Except.map] at h
        exact h ▸ execute_query_uniform_error drv list_schemas_sql pe ho
  · intro drv s e0 hb hc
    simp [list_tables_in_schema, hb, hc]

/-- Witness for the amended C6: the leak conjunct at a concrete failing
driver. -/
theorem error_kind_uniformity_witness :
    isBlank "public" = false ∧ failDriver.connect = .error connErr ∧
      (list_tables_in_schema failDriver "public").outcome =
        .error (.pgError connErr) :=
  ⟨by decide, rfl,
    error_kind_uniformity.2.2.2.2 failDriver "public" connErr (by decide) rfl⟩

end RedshiftMCP
